import Mathlib

/-!
Shallow embedding of the DNS server framework core (middleware chain,
mandatory middleware processor, datagram server command loop, service
transactions and stream framing), together with theorems checking the
specification's claims against it.
-/

namespace DomainSrv

/-! ## Middleware chain (src/net/server/middleware/chain.rs) -/

/-- Result of a single processor's `preprocess`: mirrors
`ControlFlow<AdditionalBuilder<...>>` where `Continue(())` leaves behind the
(possibly mutated) request and `Break(response)` short-circuits with a
response. -/
inductive PreResult (Req Resp : Type) where
  | Continue (req : Req)
  | Break (resp : Resp)
deriving DecidableEq, Repr

/-- A middleware processor: `preprocess(&mut request) -> ControlFlow<response>`
and `postprocess(&request, &mut response)`, the latter modelled as a function
returning the updated response. -/
structure MiddlewareProcessor (Req Resp : Type) where
  preprocess : Req → PreResult Req Resp
  postprocess : Req → Resp → Resp

/-- Result of `MiddlewareChain::preprocess`: `ControlFlow::Continue(())` with
the final request state, or `ControlFlow::Break((response, idx))` carrying the
index `idx` of the pre-processor which terminated processing. -/
inductive ChainPreResult (Req Resp : Type) where
  | Continue (req : Req)
  | Break (resp : Resp) (idx : Nat)
deriving DecidableEq, Repr

/-- Helper for `MiddlewareChain.preprocess`: the `for (i, p) in
self.processors.iter().enumerate()` loop, with `i` the index of the head
processor of `ps`. -/
def preprocessFrom {Req Resp : Type} (i : Nat)
    (ps : List (MiddlewareProcessor Req Resp)) (req : Req) :
    ChainPreResult Req Resp :=
  match ps with
  | [] => ChainPreResult.Continue req
  | p :: rest =>
      match p.preprocess req with
      | PreResult.Continue req2 => preprocessFrom (i + 1) rest req2
      | PreResult.Break resp => ChainPreResult.Break resp i

/-- `MiddlewareChain::preprocess`: walks the chain forward invoking
pre-processors one by one; on `Break(response)` from processor `i` it stops
and returns the response together with `i`. -/
def MiddlewareChain.preprocess {Req Resp : Type}
    (processors : List (MiddlewareProcessor Req Resp)) (req : Req) :
    ChainPreResult Req Resp :=
  preprocessFrom 0 processors req

/-- `MiddlewareChain::postprocess`: selects `&processors[RangeTo { end }]`
(exclusive of `end`) when `last_processor_idx = Some(end)`, else the whole
slice, and applies the selected processors' `postprocess` in reverse order
(`.iter().rev().for_each(...)`). -/
def MiddlewareChain.postprocess {Req Resp : Type}
    (processors : List (MiddlewareProcessor Req Resp)) (req : Req)
    (resp : Resp) (lastProcessorIdx : Option Nat) : Resp :=
  let selected :=
    match lastProcessorIdx with
    | some e => processors.take e
    | none => processors
  selected.reverse.foldl (fun r p => p.postprocess req r) resp

/-! ## DNS message / response model

The wire-format library (`crate::base`) is an external collaborator; requests
and response builders are modelled by the fields the server core inspects. -/

/-- DNS RCODE values used by the server core (`base::iana::Rcode`). -/
inductive Rcode where
  | NoError
  | FormErr
  | ServFail
  | NotImp
deriving DecidableEq, Repr

/-- DNS message header fields the server core reads or writes. -/
structure Header where
  id : Nat
  qr : Bool
  tc : Bool
  rd : Bool
  rcode : Rcode
deriving DecidableEq, Repr

/-- A freshly built message header is all-zero (`MessageBuilder` default). -/
def Header.zero : Header :=
  { id := 0, qr := false, tc := false, rd := false, rcode := Rcode.NoError }

/-- An additional-section record of a request, as far as the mandatory
processor inspects it via `additional().limit_to::<Opt<_>>()`: whether its
record type is OPT, whether parsing the record succeeds (the iterator yields
`Ok`/`Err`), and its CLASS field (the requestor's UDP payload size). -/
structure ReqRecord where
  isOpt : Bool
  parseOk : Bool
  rrClass : Nat
deriving DecidableEq, Repr

/-- A parsed request message: the header fields and additional-section
records the mandatory processor inspects. -/
structure ReqMessage where
  header : Header
  additional : List ReqRecord
deriving DecidableEq, Repr

/-- The OPT records of a request: `additional().limit_to::<Opt<_>>()` yields
exactly the additional records whose record type is OPT. -/
def ReqMessage.optRecords (m : ReqMessage) : List ReqRecord :=
  m.additional.filter (fun r => r.isOpt)

/-- Modelled from the spec: the transport context of a request is
`{udp{max_response_size_hint?: u16}} | {tcp}` (spec section 3); the concrete
`TransportSpecificContext` type lives in the `message` module which is not
part of the sources. -/
inductive TransportCtx where
  | Udp (maxResponseSizeHint : Option Nat)
  | NonUdp
deriving DecidableEq, Repr

/-- Whether the transport context is UDP (`TransportSpecificContext::is_udp`). -/
def TransportCtx.isUdp : TransportCtx → Bool
  | TransportCtx.Udp _ => true
  | TransportCtx.NonUdp => false

/-- Modelled from the spec: a context-aware request wraps a parsed message
with its transport context (spec sections 3 and 4.2); the concrete
`ContextAwareMessage` type lives in the `message` module which is not part of
the sources. -/
structure ContextAwareMessage where
  msg : ReqMessage
  transport : TransportCtx
deriving DecidableEq, Repr

/-- Modelled from the spec: `max_response_size_hint()` reads the hint of the
UDP transport context (spec section 4.2); a non-UDP transport carries none. -/
def ContextAwareMessage.maxResponseSizeHint
    (r : ContextAwareMessage) : Option Nat :=
  match r.transport with
  | TransportCtx.Udp hint => hint
  | TransportCtx.NonUdp => none

/-- Modelled from the spec: `set_max_response_size_hint(v)` stores the hint in
the UDP transport context (spec section 4.2); on a non-UDP transport there is
no hint to store. -/
def ContextAwareMessage.setMaxResponseSizeHint
    (r : ContextAwareMessage) (v : Nat) : ContextAwareMessage :=
  match r.transport with
  | TransportCtx.Udp _ => { r with transport := TransportCtx.Udp (some v) }
  | TransportCtx.NonUdp => r

/-- A record of a built response's additional section: whether it is the OPT
pseudo-record, and its encoded size in bytes. -/
structure RespRecord where
  isOpt : Bool
  size : Nat
deriving DecidableEq, Repr

/-- A response builder (`AdditionalBuilder<StreamTarget<Target>>`): the
header plus the four sections, each entry abstracted to its encoded byte
size (and, for additional records, whether it is the OPT record). -/
structure Response where
  header : Header
  question : List Nat
  answer : List Nat
  authority : List Nat
  additional : List RespRecord
deriving DecidableEq, Repr

/-- Byte length of the built response (`response.as_slice().len()`): the
12-byte header followed by the encoded records of the four sections. -/
def Response.len (r : Response) : Nat :=
  12 + r.question.sum + r.answer.sum + r.authority.sum
    + (r.additional.map (fun a => a.size)).sum

/-- The response's OPT record (`Message::opt()`): the first additional record
that is an OPT record, if any. -/
def Response.opt (r : Response) : Option RespRecord :=
  r.additional.find? (fun a => a.isOpt)

/-- `mk_builder_for_target()`: a fresh builder over an empty target, with an
all-zero header and empty sections. -/
def mkBuilderForTarget : Response :=
  { header := Header.zero, question := [], answer := [], authority := [],
    additional := [] }

/-! ## Mandatory middleware processor
(src/net/server/middleware/processors/mandatory.rs) -/

/-- The FORMERR response built by `preprocess` on an RFC 6891 6.1.1 violation:
`mk_builder_for_target()` with `set_rcode(Rcode::FormErr)`, converted to an
additional builder. -/
def formErrResponse : Response :=
  { mkBuilderForTarget with
      header := { mkBuilderForTarget.header with rcode := Rcode.FormErr } }

/-- `MandatoryMiddlewareProcessor::truncate`: on a UDP request carrying a max
response size hint, if the built response is longer than the hint, set TC and
rebuild the response from its own header, question section and OPT record,
leaving answer and authority empty. -/
def MandatoryMiddlewareProcessor.truncate (request : ContextAwareMessage)
    (response : Response) : Response :=
  match request.transport with
  | TransportCtx.Udp (some maxResponseSizeHint) =>
      if response.len > maxResponseSizeHint then
        -- response.header_mut().set_tc(true)
        let response1 :=
          { response with header := { response.header with tc := true } }
        -- source = response.as_message(); target = mk_builder_for_target()
        let source := response1
        -- *target.header_mut() = source.header()
        -- push each question of source; push source.opt() if present
        { mkBuilderForTarget with
            header := source.header,
            question := source.question,
            additional :=
              match source.opt with
              | some opt => [opt]
              | none => [] }
      else
        response
  | _ => response

/-- `MandatoryMiddlewareProcessor::preprocess`: FORMERR on more than one OPT
record; on UDP, adopt a well-formed OPT's CLASS field (the requestor's UDP
payload size) as the max response size hint when it is at least 512 and no
hint is set yet; values below 512 are logged and ignored. -/
def MandatoryMiddlewareProcessor.preprocess (request : ContextAwareMessage) :
    PreResult ContextAwareMessage Response :=
  match request.msg.optRecords with
  | [] =>
      -- no OPT record in additional: nothing to inspect
      PreResult.Continue request
  | opt :: rest =>
      if rest.isEmpty then
        -- exactly one OPT record
        let newMaxResponseSizeHint : Option Nat :=
          if request.transport.isUdp then
            if opt.parseOk then
              if opt.rrClass < 512 then
                -- RFC 6891 6.2.3 violation: log and ignore
                none
              else if request.maxResponseSizeHint.isNone then
                some opt.rrClass
              else
                none
            else
              none
          else
            none
        match newMaxResponseSizeHint with
        | some h => PreResult.Continue (request.setMaxResponseSizeHint h)
        | none => PreResult.Continue request
      else
        -- more than one OPT RR received: RFC 6891 6.1.1 violation
        PreResult.Break formErrResponse

/-- `MandatoryMiddlewareProcessor::postprocess`: truncate if needed, then copy
the request's ID into the response, set QR, and copy the request's RD flag.
The source discusses stripping a response OPT when the request carried none,
but that step is a TODO and not implemented. -/
def MandatoryMiddlewareProcessor.postprocess (request : ContextAwareMessage)
    (response : Response) : Response :=
  let r := MandatoryMiddlewareProcessor.truncate request response
  { r with
      header := { r.header with
        id := request.msg.header.id,
        qr := true,
        rd := request.msg.header.rd } }

/-- The mandatory processor as a chain element. -/
def mandatoryProcessor : MiddlewareProcessor ContextAwareMessage Response :=
  { preprocess := MandatoryMiddlewareProcessor.preprocess,
    postprocess := MandatoryMiddlewareProcessor.postprocess }

/-- The request state after `preprocess`: on `Continue` the request as left by
the processor; on `Break` the request as it was (the processor made no change
to it before breaking). -/
def requestAfterPreprocess (request : ContextAwareMessage) :
    ContextAwareMessage :=
  match MandatoryMiddlewareProcessor.preprocess request with
  | PreResult.Continue r => r
  | PreResult.Break _ => request

/-! ## Datagram server command handling (src/net/server/dgram.rs) -/

/-- Lifecycle commands broadcast over the server's watch channel
(src/net/server/service.rs, `ServiceCommand`). -/
inductive ServiceCommand where
  | CloseConnection
  | Init
  | Reconfigure (idleTimeout : Nat)
  | Shutdown
deriving DecidableEq, Repr

/-- Outcome of `DgramServer::run_until_error`'s command handling: a clean
`Ok(())` exit on `Shutdown`, a panic on an `unreachable!()` branch, or still
looping because no observed command terminated it. -/
inductive LoopOutcome where
  | ok
  | panicked
  | stillRunning
deriving DecidableEq, Repr

/-- The command branch of `DgramServer::run_until_error`, folded over the
sequence of commands observed on the watch channel: `Reconfigure` is a no-op
(the loop continues), `Shutdown` breaks out of the loop after which
`Ok(())` is returned, and `Init` and `CloseConnection` are `unreachable!()`
panics. -/
def runUntilErrorCommands : List ServiceCommand → LoopOutcome
  | [] => LoopOutcome.stillRunning
  | c :: rest =>
      match c with
      | ServiceCommand.Reconfigure _ => runUntilErrorCommands rest
      | ServiceCommand.Shutdown => LoopOutcome.ok
      | ServiceCommand.Init => LoopOutcome.panicked
      | ServiceCommand.CloseConnection => LoopOutcome.panicked

/-! ## Transactions (src/net/server/service.rs) -/

/-- A server transaction: `Single` holds an `Option<Box<dyn Future>>` (a
future modelled by its output value), `Stream` an ordered finite sequence of
items. -/
inductive Transaction (Item : Type) where
  | Single (fut : Option Item)
  | Stream (items : List Item)
deriving DecidableEq, Repr

/-- `Transaction::single(fut)`: wraps the future in `Single(Some(fut))`. -/
def Transaction.single {Item : Type} (fut : Item) : Transaction Item :=
  Transaction.Single (some fut)

/-- `Transaction::next(&mut self)`: for `Single`, `opt_fut.take()` yields the
future's output once and leaves `None` behind; for `Stream`, the next stream
item. Returns the yielded item and the transaction's new state. -/
def Transaction.next {Item : Type} :
    Transaction Item → Option Item × Transaction Item
  | Transaction.Single (some fut) => (some fut, Transaction.Single none)
  | Transaction.Single none => (none, Transaction.Single none)
  | Transaction.Stream [] => (none, Transaction.Stream [])
  | Transaction.Stream (i :: rest) => (some i, Transaction.Stream rest)

/-- State of a transaction after `n` calls to `next`. -/
def Transaction.stateAfter {Item : Type} (t : Transaction Item) :
    Nat → Transaction Item
  | 0 => t
  | n + 1 => (Transaction.stateAfter t n).next.2

/-! ## Stream message framing (src/net/server/service.rs, `MsgProvider`) -/

/-- `MIN_HDR_BYTES` for DNS `Message`s: the two-byte length field of RFC 1035
section 4.2.2 TCP framing. -/
def MIN_HDR_BYTES : Nat := 2

/-- `u16::from_be_bytes([hi, lo])` on byte values: the high byte shifted left
eight bits, or-ed with the low byte. -/
def u16FromBeBytes (hi lo : Nat) : Nat :=
  (hi <<< 8) ||| lo

/-- `determine_msg_len`: `try_into` the header buffer into a 2-byte array
(failing on any other length) and read it as a big-endian u16. -/
def determine_msg_len (hdrBuf : List Nat) : Option Nat :=
  match hdrBuf with
  | [hi, lo] => some (u16FromBeBytes hi lo)
  | _ => none

/-! ## Concrete inputs used by counterexamples and witnesses -/

/-- A processor over trivial requests whose `preprocess` breaks immediately
and whose `postprocess` increments a counter response, making an invocation
of `postprocess` observable. -/
def breakingProc : MiddlewareProcessor Unit Nat :=
  { preprocess := fun _ => PreResult.Break 0,
    postprocess := fun _ r => r + 1 }

/-- A UDP request with no hint carrying a single well-formed OPT record whose
CLASS field is 100 (below 512). -/
def c4Req : ContextAwareMessage :=
  { msg := { header := Header.zero,
             additional := [{ isOpt := true, parseOk := true,
                              rrClass := 100 }] },
    transport := TransportCtx.Udp none }

/-- A UDP request with no hint and no OPT record at all. -/
def noOptReq : ContextAwareMessage :=
  { msg := { header := Header.zero, additional := [] },
    transport := TransportCtx.Udp none }

/-- A response whose additional section carries one OPT record of 11 bytes. -/
def optResp : Response :=
  { header := Header.zero, question := [5], answer := [20], authority := [],
    additional := [{ isOpt := true, size := 11 }] }

/-- A UDP request with no hint carrying a single well-formed OPT record whose
CLASS field is 700. -/
def bigClassReq : ContextAwareMessage :=
  { msg := { header := Header.zero,
             additional := [{ isOpt := true, parseOk := true,
                              rrClass := 700 }] },
    transport := TransportCtx.Udp none }

/-- A UDP request whose hint is already 1400, carrying a single well-formed
OPT record whose CLASS field is 700. -/
def presetHintReq : ContextAwareMessage :=
  { msg := { header := Header.zero,
             additional := [{ isOpt := true, parseOk := true,
                              rrClass := 700 }] },
    transport := TransportCtx.Udp (some 1400) }

/-- A request carrying two OPT records in its additional section. -/
def twoOptReq : ContextAwareMessage :=
  { msg := { header := { Header.zero with id := 4660, rd := true },
             additional := [{ isOpt := true, parseOk := true,
                              rrClass := 1232 },
                            { isOpt := true, parseOk := true,
                              rrClass := 1232 }] },
    transport := TransportCtx.Udp none }

/-- A UDP request with hint 512 and id 77, RD set, with one OPT record. -/
def truncReq : ContextAwareMessage :=
  { msg := { header := { Header.zero with id := 77, rd := true },
             additional := [{ isOpt := true, parseOk := true,
                              rrClass := 512 }] },
    transport := TransportCtx.Udp (some 512) }

/-- A large response: 600 bytes of answer data next to a question and an OPT
record, exceeding a 512-byte hint. -/
def bigResp : Response :=
  { header := Header.zero, question := [17], answer := [600],
    authority := [30], additional := [{ isOpt := false, size := 25 },
                                      { isOpt := true, size := 11 }] }

/-! ## Theorems -/

/-- C1: the claim says that when `preprocess` breaks at index `i`,
`postprocess` with `last_processor_idx = Some(i)` invokes processors `i` down
to `0`, the breaking processor included. The code slices
`&processors[RangeTo { end: i }]`, which excludes index `i`: on a one-element
chain whose processor breaks (at index 0), `postprocess` with `Some(0)`
invokes no processor at all, leaving the response untouched, although the
breaking processor did run `preprocess`. This contradicts the chain's own
documentation, which says post-processing starts with that processor. -/
theorem c1_break_processor_postprocess_skipped :
    MiddlewareChain.preprocess [breakingProc] () = ChainPreResult.Break 0 0 ∧
    MiddlewareChain.postprocess [breakingProc] () 5 (some 0) = 5 := by
  constructor <;> rfl

/-- C2: for every request over UDP carrying a max response size hint, if the
response is longer than the hint then after the mandatory processor's
`postprocess` the response has TC set and consists of the header, the
original question section, and the response's OPT record only — answer and
authority are empty. -/
theorem c2_udp_truncation_minimal_response (req : ContextAwareMessage)
    (resp : Response) (hint : Nat)
    (htr : req.transport = TransportCtx.Udp (some hint))
    (hlen : resp.len > hint) :
    (MandatoryMiddlewareProcessor.postprocess req resp).header.tc = true ∧
    (MandatoryMiddlewareProcessor.postprocess req resp).answer = [] ∧
    (MandatoryMiddlewareProcessor.postprocess req resp).authority = [] ∧
    (MandatoryMiddlewareProcessor.postprocess req resp).question
        = resp.question ∧
    (MandatoryMiddlewareProcessor.postprocess req resp).additional
        = (match resp.opt with | some opt => [opt] | none => []) := by
  simp [MandatoryMiddlewareProcessor.postprocess,
    MandatoryMiddlewareProcessor.truncate, Response.opt, htr, hlen,
    mkBuilderForTarget]

/-- Witness for C2: a 695-byte response against a 512-byte hint is truncated
to header, question and OPT. -/
theorem c2_udp_truncation_minimal_response_witness :
    bigResp.len > 512 ∧
    ((MandatoryMiddlewareProcessor.postprocess truncReq bigResp).header.tc
        = true ∧
    (MandatoryMiddlewareProcessor.postprocess truncReq bigResp).answer = [] ∧
    (MandatoryMiddlewareProcessor.postprocess truncReq bigResp).authority
        = [] ∧
    (MandatoryMiddlewareProcessor.postprocess truncReq bigResp).question
        = bigResp.question ∧
    (MandatoryMiddlewareProcessor.postprocess truncReq bigResp).additional
        = (match bigResp.opt with | some opt => [opt] | none => [])) :=
  ⟨by decide, c2_udp_truncation_minimal_response truncReq bigResp 512 rfl
    (by decide)⟩

/-- C3: for every request and every response builder, the mandatory
processor's `postprocess` leaves the response with the request's message ID,
QR set, and the request's RD flag. -/
theorem c3_response_header_fixups (req : ContextAwareMessage)
    (resp : Response) :
    (MandatoryMiddlewareProcessor.postprocess req resp).header.id
        = req.msg.header.id ∧
    (MandatoryMiddlewareProcessor.postprocess req resp).header.qr = true ∧
    (MandatoryMiddlewareProcessor.postprocess req resp).header.rd
        = req.msg.header.rd := by
  simp [MandatoryMiddlewareProcessor.postprocess]

/-- C4 counterexample: the claim says a single well-formed OPT with CLASS
`c < 512` yields a hint of 512. On a UDP request with one well-formed OPT of
CLASS 100, `preprocess` leaves the request unchanged and its hint is `none`,
not `some 512`: values below 512 are logged and ignored. -/
theorem c4_low_class_hint_counterexample :
    MandatoryMiddlewareProcessor.preprocess c4Req = PreResult.Continue c4Req ∧
    c4Req.maxResponseSizeHint = none := by
  constructor <;> rfl

/-- C4 amended: for every UDP request with no hint set and a single
well-formed OPT record of CLASS `c`, `preprocess` sets the hint to `c` when
`c ≥ 512` and leaves it unset when `c < 512` (the low value is logged and
ignored, not floored to 512). -/
theorem c4_hint_set_only_if_class_ge_512 (req : ContextAwareMessage)
    (opt : ReqRecord)
    (htr : req.transport = TransportCtx.Udp none)
    (hopt : req.msg.optRecords = [opt])
    (hok : opt.parseOk = true) :
    (requestAfterPreprocess req).maxResponseSizeHint =
      if 512 ≤ opt.rrClass then some opt.rrClass else none := by
  have hudp : req.transport.isUdp = true := by rw [htr]; rfl
  have hnone : req.maxResponseSizeHint = none := by
    unfold ContextAwareMessage.maxResponseSizeHint
    rw [htr]
  by_cases hc : opt.rrClass < 512
  · simp only [requestAfterPreprocess, MandatoryMiddlewareProcessor.preprocess,
      hopt, List.isEmpty_nil, if_true, hudp, hok, hc, if_pos]
    simp [hnone]
    rw [if_neg (by omega)]
  · simp only [requestAfterPreprocess, MandatoryMiddlewareProcessor.preprocess,
      hopt, List.isEmpty_nil, if_true, hudp, hok, hc, if_neg]
    simp [hnone, ContextAwareMessage.setMaxResponseSizeHint,
      ContextAwareMessage.maxResponseSizeHint, htr]
    omega

/-- Witness for the amended C4: an OPT CLASS of 700 becomes the hint. -/
theorem c4_hint_set_only_if_class_ge_512_witness :
    (requestAfterPreprocess bigClassReq).maxResponseSizeHint =
      if 512 ≤ 700 then some 700 else none :=
  c4_hint_set_only_if_class_ge_512 bigClassReq
    { isOpt := true, parseOk := true, rrClass := 700 } rfl rfl rfl

/-- C5: the claim says `postprocess` removes any response OPT record when the
request carried none. The source only discusses this step in a TODO comment
and does not implement it: on a request with no OPT record and a response
whose additional section carries an OPT record, the OPT record is still
present after `postprocess`, contradicting the source's own comment that the
OPT record is to be stripped off. -/
theorem c5_response_opt_retained :
    noOptReq.msg.optRecords = [] ∧
    (MandatoryMiddlewareProcessor.postprocess noOptReq optResp).opt =
      some { isOpt := true, size := 11 } := by
  constructor <;> rfl

/-- C6: for every request with more than one OPT record in its additional
section, the mandatory processor's `preprocess` breaks with the FORMERR
response, and a chain headed by the mandatory processor breaks at index 0 —
for every list of later processors alike, so none of them is consulted. -/
theorem c6_multi_opt_formerr_break (req : ContextAwareMessage)
    (qs : List (MiddlewareProcessor ContextAwareMessage Response))
    (h : 1 < req.msg.optRecords.length) :
    MandatoryMiddlewareProcessor.preprocess req
        = PreResult.Break formErrResponse ∧
    formErrResponse.header.rcode = Rcode.FormErr ∧
    MiddlewareChain.preprocess (mandatoryProcessor :: qs) req
        = ChainPreResult.Break formErrResponse 0 := by
  have hpre : MandatoryMiddlewareProcessor.preprocess req
      = PreResult.Break formErrResponse := by
    unfold MandatoryMiddlewareProcessor.preprocess
    cases hl : req.msg.optRecords with
    | nil => rw [hl] at h; simp at h
    | cons opt rest =>
      cases rest with
      | nil => rw [hl] at h; simp at h
      | cons opt2 rest2 => rfl
  refine ⟨hpre, rfl, ?_⟩
  unfold MiddlewareChain.preprocess preprocessFrom
  simp [mandatoryProcessor, hpre]

/-- Witness for C6: a request with two OPT records is answered FORMERR. -/
theorem c6_multi_opt_formerr_break_witness :
    1 < twoOptReq.msg.optRecords.length ∧
    (MandatoryMiddlewareProcessor.preprocess twoOptReq
        = PreResult.Break formErrResponse ∧
    formErrResponse.header.rcode = Rcode.FormErr ∧
    MiddlewareChain.preprocess [mandatoryProcessor] twoOptReq
        = ChainPreResult.Break formErrResponse 0) :=
  ⟨by decide, c6_multi_opt_formerr_break twoOptReq [] (by decide)⟩

/-- C7: if every command observed on the watch channel is `Shutdown` (the
only command `shutdown()` ever sends after construction), the datagram
server's command loop never reaches the `unreachable!()` branches for `Init`
and `CloseConnection`, and on observing `Shutdown` it exits cleanly with
`Ok(())`. -/
theorem c7_shutdown_only_no_unreachable (observed : List ServiceCommand)
    (h : ∀ c ∈ observed, c = ServiceCommand.Shutdown) :
    runUntilErrorCommands observed ≠ LoopOutcome.panicked ∧
    (observed ≠ [] → runUntilErrorCommands observed = LoopOutcome.ok) := by
  cases observed with
  | nil => simp [runUntilErrorCommands]
  | cons c rest =>
    have hc : c = ServiceCommand.Shutdown := h c (List.mem_cons_self c rest)
    subst hc
    simp [runUntilErrorCommands]

/-- Witness for C7: observing exactly one `Shutdown` exits with `Ok(())`. -/
theorem c7_shutdown_only_no_unreachable_witness :
    runUntilErrorCommands [ServiceCommand.Shutdown] = LoopOutcome.ok :=
  (c7_shutdown_only_no_unreachable [ServiceCommand.Shutdown]
    (by decide)).2 (by decide)

/-- C8: a transaction built by `Transaction::single(fut)` yields the future's
output on the first call to `next` and `None` on every later call. -/
theorem c8_single_transaction_yields_once {Item : Type} (fut : Item) :
    (Transaction.single fut).next = (some fut, Transaction.Single none) ∧
    ∀ n, 1 ≤ n →
      ((Transaction.single fut).stateAfter n).next.1 = none := by
  refine ⟨rfl, ?_⟩
  intro n hn
  have hstate : ∀ m,
      (Transaction.single fut).stateAfter (m + 1)
        = Transaction.Single none := by
    intro m
    induction m with
    | zero => rfl
    | succ k ih =>
      show ((Transaction.single fut).stateAfter (k + 1)).next.2 = _
      rw [ih]
      rfl
  obtain ⟨m, rfl⟩ : ∃ m, n = m + 1 := ⟨n - 1, by omega⟩
  rw [hstate m]
  rfl

/-- Witness for C8: after the first call every later `next` yields `None`. -/
theorem c8_single_transaction_yields_once_witness :
    ((Transaction.single (7 : Nat)).stateAfter 3).next.1 = none :=
  (c8_single_transaction_yields_once 7).2 3 (by norm_num)

/-- C9: the DNS `Message` stream provider declares `MIN_HDR_BYTES = 2`, and
on a 2-byte header buffer `[a, b]` the message length is the big-endian
16-bit value `256 * a + b`. -/
theorem c9_stream_framing_two_byte_len (a b : Nat) (ha : a < 256)
    (hb : b < 256) :
    MIN_HDR_BYTES = 2 ∧ determine_msg_len [a, b] = some (256 * a + b) := by
  refine ⟨rfl, ?_⟩
  show some (u16FromBeBytes a b) = some (256 * a + b)
  unfold u16FromBeBytes
  have h : a <<< 8 = 2 ^ 8 * a := by rw [Nat.shiftLeft_eq]; ring
  rw [h, ← Nat.mul_add_lt_is_or hb a]

/-- Witness for C9: the header bytes `[1, 2]` announce 258 message bytes. -/
theorem c9_stream_framing_two_byte_len_witness :
    MIN_HDR_BYTES = 2 ∧ determine_msg_len [1, 2] = some (256 * 1 + 2) :=
  c9_stream_framing_two_byte_len 1 2 (by norm_num) (by norm_num)

/-- C10: the mandatory processor's `preprocess` never overwrites an existing
max response size hint: a request entering with hint `Some(v)` still has
hint `Some(v)` afterwards, whatever the OPT CLASS value. -/
theorem c10_hint_not_overwritten (req : ContextAwareMessage) (v : Nat)
    (h : req.maxResponseSizeHint = some v) :
    (requestAfterPreprocess req).maxResponseSizeHint = some v := by
  have hnone : req.maxResponseSizeHint.isNone = false := by rw [h]; rfl
  unfold requestAfterPreprocess MandatoryMiddlewareProcessor.preprocess
  cases hl : req.msg.optRecords with
  | nil => simpa using h
  | cons opt rest =>
    cases hre : rest.isEmpty with
    | false => simpa [hre] using h
    | true =>
      simp only [hre, if_true, hnone]
      split_ifs <;> simp_all

/-- Witness for C10: a pre-set hint of 1400 survives an OPT CLASS of 700. -/
theorem c10_hint_not_overwritten_witness :
    (requestAfterPreprocess presetHintReq).maxResponseSizeHint = some 1400 :=
  c10_hint_not_overwritten presetHintReq 1400 rfl

end DomainSrv

